import Mathlib

/-
Verification of the portfolio backend API (src/main.py) against its
specification. The three request handlers under scrutiny are
`list_projects` (GET /api/projects), `get_project` (GET /api/projects/slug)
and `submit_contact` (POST /api/contact). The document store accessor
(database.create_document / database.get_documents) is an external
collaborator: the handlers are embedded over an oracle environment that
supplies, per call, either a successful result or an exception, and the
embedding records the trace of store calls each handler performs.
-/

set_option autoImplicit false

deriving instance DecidableEq for Except

namespace Portfolio

/-- A field value of a document, covering the shapes occurring in the code:
strings, integers, booleans, lists of strings (the `tech` and `images`
fields), and opaque store identifiers (ObjectId, rendered by `str` as its
hex text). -/
inductive Value where
  | str (s : String)
  | int (n : Int)
  | bool (b : Bool)
  | strList (l : List String)
  | oid (h : String)
deriving DecidableEq

/-- A document: a Python dict with string keys, modelled as an association
list in insertion order with unique keys. -/
abbrev Doc := List (String × Value)

/-- `k in d` on a Python dict. -/
def hasKey (k : String) (d : Doc) : Bool :=
  d.any (fun kv => kv.1 == k)

/-- `d[k]` lookup on a Python dict, `none` when the key is absent. -/
def lookupKey (k : String) (d : Doc) : Option Value :=
  (d.find? (fun kv => kv.1 == k)).map (fun kv => kv.2)

/-- `d.pop(k)`: the dict with key `k` removed. -/
def removeKey (k : String) (d : Doc) : Doc :=
  d.filter (fun kv => !(kv.1 == k))

/-- `d[k] = v` on a Python dict: overwrite in place when the key exists,
append at the end otherwise. -/
def setKey (k : String) (v : Value) : Doc → Doc
  | [] => [(k, v)]
  | kv :: rest => if kv.1 == k then (k, v) :: rest else kv :: setKey k v rest

/-- Python `str` of a field value (`str` of an ObjectId is its hex text;
`str` of a string is itself). -/
def pyStr : Value → String
  | .str s => s
  | .int n => toString n
  | .bool b => if b then "True" else "False"
  | .strList l => "[" ++ String.intercalate ", " (l.map (fun s => "\x27" ++ s ++ "\x27")) ++ "]"
  | .oid h => h

/-- Lines 129-131 / 147-148 of main.py: `if "_id" in d: d["id"] = str(d.pop("_id"))`. -/
def renameId (d : Doc) : Doc :=
  match lookupKey "_id" d with
  | some v => setKey "id" (Value.str (pyStr v)) (removeKey "_id" d)
  | none => d

/-- The hardcoded fallback dataset `SAMPLE_PROJECTS` of main.py, verbatim. -/
def SAMPLE_PROJECTS : List Doc :=
  [ [ ("title", Value.str "Immersive Brand Microsite"),
      ("role", Value.str "Lead 3D & Frontend"),
      ("year", Value.int 2024),
      ("description", Value.str "A lightweight WebGL brand experience with scroll-driven narrative and Spline-authored hero."),
      ("tech", Value.strList ["React", "Three.js", "Spline", "Framer Motion"]),
      ("images", Value.strList
        [ "https://images.unsplash.com/photo-1517694712202-14dd9538aa97?q=80&w=1600&auto=format&fit=crop",
          "https://images.unsplash.com/photo-1504639725590-34d0984388bd?q=80&w=1600&auto=format&fit=crop" ]),
      ("slug", Value.str "immersive-brand-microsite"),
      ("featured", Value.bool true),
      ("url", Value.str "https://example.com/project/immersive-brand-microsite") ],
    [ ("title", Value.str "Realtime Product Configurator"),
      ("role", Value.str "3D Developer"),
      ("year", Value.int 2023),
      ("description", Value.str "GPU-optimized configurator with LOD meshes, compressed textures, and AR preview."),
      ("tech", Value.strList ["React", "r3f", "GLTF", "WebGL"]),
      ("images", Value.strList
        [ "https://images.unsplash.com/photo-1518779578993-ec3579fee39f?q=80&w=1600&auto=format&fit=crop" ]),
      ("slug", Value.str "realtime-product-configurator"),
      ("featured", Value.bool true),
      ("url", Value.str "https://example.com/project/realtime-product-configurator") ],
    [ ("title", Value.str "Data-Driven Portfolio Engine"),
      ("role", Value.str "Full-Stack Engineer"),
      ("year", Value.int 2022),
      ("description", Value.str "Composable portfolio with CMS, structured data, and blazing-fast edge rendering."),
      ("tech", Value.strList ["Next.js", "MongoDB", "Edge Runtime"]),
      ("images", Value.strList
        [ "https://images.unsplash.com/photo-1516259762381-22954d7d3ad2?q=80&w=1600&auto=format&fit=crop" ]),
      ("slug", Value.str "data-driven-portfolio-engine"),
      ("featured", Value.bool true),
      ("url", Value.str "https://example.com/project/data-driven-portfolio-engine") ] ]

/-- A store call issued by a handler, as recorded in its trace. -/
inductive Call where
  | getDocs (coll : String) (filt : Doc) (limit : Int)
  | createDoc (coll : String) (doc : Doc)
deriving DecidableEq

/-- The store oracle a handler runs against: whether the handle `db` is
non-None, and the outcome of the n-th `get_documents` call and the n-th
`create_document` call made during the request (`Except.error ()` means the
call raised an exception). -/
structure Env where
  present : Bool
  getResp : Nat → Except Unit (List Doc)
  createResp : Nat → Except Unit String

/-- Python `limit or 50` (line 119/127): `None` and `0` are falsy. -/
def orFifty : Option Int → Int
  | none => 50
  | some k => if k = 0 then 50 else k

/-- Python prefix slice `l[:k]`, including the negative-index convention. -/
def pySlice (l : List Doc) (k : Int) : List Doc :=
  if 0 ≤ k then l.take k.toNat else l.take (l.length - (-k).toNat)

/-- Line 136 of main.py: `SAMPLE_PROJECTS[:limit] if limit else SAMPLE_PROJECTS`,
generalized over the dataset the global name refers to. -/
def fallbackDataOf (samples : List Doc) : Option Int → List Doc
  | none => samples
  | some k => if k = 0 then samples else pySlice samples k

/-- `fallbackDataOf` at the actual `SAMPLE_PROJECTS` global. -/
def fallbackData (limit : Option Int) : List Doc :=
  fallbackDataOf SAMPLE_PROJECTS limit

/-- The `get_documents("project", {}, limit=limit or 50)` call of lines 119/127. -/
def listQuery (limit : Option Int) : Call :=
  Call.getDocs "project" [] (orFifty limit)

/-- The seed loop of lines 122-126: one `create_document("project", p)` per
sample entry, each entry passed unchanged, each outcome discarded
(`except Exception: pass`). -/
def seedTraceOf (samples : List Doc) : List Call :=
  samples.map (fun p => Call.createDoc "project" p)

/-- Lines 114-137 of main.py (`list_projects`), generalized over the dataset
the `SAMPLE_PROJECTS` global refers to. Returns the `projects` list of the
response together with the trace of store calls. The handler cannot raise:
the entire store interaction sits inside `try ... except Exception: pass`
and falls through to the sample-data return. -/
def list_projects_core (samples : List Doc) (env : Env) (limit : Option Int) :
    List Doc × List Call :=
  if env.present then
    match env.getResp 0 with
    | Except.error _ => (fallbackDataOf samples limit, [listQuery limit])
    | Except.ok docs =>
      if docs.isEmpty then
        match env.getResp 1 with
        | Except.error _ =>
            (fallbackDataOf samples limit,
              listQuery limit :: (seedTraceOf samples ++ [listQuery limit]))
        | Except.ok docs2 =>
            (docs2.map renameId,
              listQuery limit :: (seedTraceOf samples ++ [listQuery limit]))
      else (docs.map renameId, [listQuery limit])
  else (fallbackDataOf samples limit, [])

/-- `list_projects` at the actual `SAMPLE_PROJECTS` global. -/
def list_projects (env : Env) (limit : Option Int) : List Doc × List Call :=
  list_projects_core SAMPLE_PROJECTS env limit

/-- Lines 153-156 of main.py: scan the samples for an exact slug match,
404 with detail "Project not found" when no entry matches. -/
def sampleBySlugOf (samples : List Doc) (slug : String) : Except (Nat × String) Doc :=
  match samples.find? (fun p => lookupKey "slug" p == some (Value.str slug)) with
  | some p => Except.ok p
  | none => Except.error (404, "Project not found")

/-- `sampleBySlugOf` at the actual `SAMPLE_PROJECTS` global. -/
def sampleBySlug (slug : String) : Except (Nat × String) Doc :=
  sampleBySlugOf SAMPLE_PROJECTS slug

/-- Lines 140-156 of main.py (`get_project`), generalized over the dataset
the `SAMPLE_PROJECTS` global refers to. `Except.error` is the raised
`HTTPException(status_code, detail)`. -/
def get_project_core (samples : List Doc) (env : Env) (slug : String) :
    Except (Nat × String) Doc × List Call :=
  if env.present then
    let q := Call.getDocs "project" [("slug", Value.str slug)] 1
    match env.getResp 0 with
    | Except.error _ => (sampleBySlugOf samples slug, [q])
    | Except.ok [] => (sampleBySlugOf samples slug, [q])
    | Except.ok (d :: _) => (Except.ok (renameId d), [q])
  else (sampleBySlugOf samples slug, [])

/-- `get_project` at the actual `SAMPLE_PROJECTS` global. -/
def get_project (env : Env) (slug : String) : Except (Nat × String) Doc × List Call :=
  get_project_core SAMPLE_PROJECTS env slug

/-- The response body of POST /api/contact. -/
structure ContactResp where
  status : String
  id : Option String
deriving DecidableEq

/-- Lines 159-170 of main.py (`submit_contact`) for a well-formed payload.
The Message document handed to the store carries the three validated string
fields. A create failure or an absent store handle is swallowed and the
`id: None` success response returned. -/
def submit_contact (env : Env) (name email message : String) :
    ContactResp × List Call :=
  let msg : Doc := [("name", Value.str name), ("email", Value.str email),
    ("message", Value.str message)]
  if env.present then
    match env.createResp 0 with
    | Except.ok i => ({ status := "ok", id := some i }, [Call.createDoc "message" msg])
    | Except.error _ => ({ status := "ok", id := none }, [Call.createDoc "message" msg])
  else ({ status := "ok", id := none }, [])

/-- The mutable process-wide state the handlers can see: the
`SAMPLE_PROJECTS` global and the store connection. -/
structure World where
  samples : List Doc
  env : Env

/-- `list_projects` as a state transformer on the process globals: the
handler only reads `SAMPLE_PROJECTS` (it never assigns to the global nor
writes into its entries; the entries are passed to `create_document`, which
per the spec writes them to the external database and does not mutate its
argument). -/
def list_projects_w (w : World) (limit : Option Int) :
    (List Doc × List Call) × World :=
  (list_projects_core w.samples w.env limit, w)

/-- `get_project` as a state transformer on the process globals; it only
reads `SAMPLE_PROJECTS`. -/
def get_project_w (w : World) (slug : String) :
    (Except (Nat × String) Doc × List Call) × World :=
  (get_project_core w.samples w.env slug, w)

/-- `submit_contact` as a state transformer on the process globals; it does
not touch `SAMPLE_PROJECTS` at all. -/
def submit_contact_w (w : World) (name email message : String) :
    (ContactResp × List Call) × World :=
  (submit_contact w.env name email message, w)

/-- The documents a handler handed to `create_document`, extracted from its
call trace. -/
def createdDocs (tr : List Call) : List Doc :=
  tr.filterMap (fun c => match c with
    | Call.createDoc _ d => some d
    | Call.getDocs _ _ _ => none)

/-- Modelled from the spec: `database.get_documents` is not in the source
tree. Per the spec the store accessor queries records matching the given
filter exactly ("query the store filtered by exact slug match, limit 1"),
returning at most `limit` of them. -/
def storeQuery (coll : List Doc) (filt : Doc) (limit : Int) : List Doc :=
  (coll.filter (fun d => filt.all (fun kv => lookupKey kv.1 d == some kv.2))).take limit.toNat

/-- The oracle induced by a reachable store whose project collection holds
`projects`, for a request that queries by the given slug. -/
def envOfStoreSlug (projects : List Doc) (slug : String) : Env :=
  { present := true
    getResp := fun _ => Except.ok (storeQuery projects [("slug", Value.str slug)] 1)
    createResp := fun _ => Except.ok "000000000000000000000000" }

/-- A concrete oracle for an unreachable store (`db is None`). -/
def envAbsent : Env :=
  { present := false
    getResp := fun _ => Except.ok []
    createResp := fun _ => Except.ok "x" }

/-- A concrete store-sourced document carrying a Mongo-style `_id`. -/
def docX : Doc :=
  [ ("_id", Value.oid "64a0c0ffee00c0ffee00c0ff"),
    ("title", Value.str "Stored Project"),
    ("slug", Value.str "stored-project") ]

/-- A concrete oracle for a reachable store that is empty on first read,
raises on the first seed write, and returns `docX` on the re-query. -/
def envSeedFail : Env :=
  { present := true
    getResp := fun n => if n = 0 then Except.ok [] else Except.ok [docX]
    createResp := fun n => if n = 0 then Except.error () else Except.ok "y" }

/-- A concrete oracle for a reachable store holding `docX`, whose writes
succeed with identifier "y". -/
def envStored : Env :=
  { present := true
    getResp := fun _ => Except.ok [docX]
    createResp := fun _ => Except.ok "y" }

end Portfolio

namespace Portfolio

@[simp]
theorem hasKey_nil (k : String) : hasKey k [] = false := rfl

@[simp]
theorem hasKey_cons (k : String) (kv : String × Value) (rest : Doc) :
    hasKey k (kv :: rest) = (kv.1 == k || hasKey k rest) := by
  simp [hasKey]

@[simp]
theorem lookupKey_nil (k : String) : lookupKey k [] = none := rfl

@[simp]
theorem lookupKey_cons (k : String) (kv : String × Value) (rest : Doc) :
    lookupKey k (kv :: rest) = if kv.1 == k then some kv.2 else lookupKey k rest := by
  cases hb : (kv.1 == k) with
  | true => simp [lookupKey, List.find?_cons_of_pos _ hb, hb]
  | false =>
    have hf : List.find? (fun kv => kv.1 == k) (kv :: rest) =
        List.find? (fun kv => kv.1 == k) rest := List.find?_cons_of_neg _ (by simp [hb])
    simp [lookupKey, hf, hb]

theorem hasKey_removeKey (k : String) (d : Doc) : hasKey k (removeKey k d) = false := by
  induction d with
  | nil => rfl
  | cons kv rest ih =>
    cases hb : (kv.1 == k) with
    | true => simpa [removeKey, hb] using ih
    | false => simpa [removeKey, hb] using ih

theorem hasKey_setKey (k k2 : String) (v : Value) (d : Doc) (h : (k2 == k) = false) :
    hasKey k (setKey k2 v d) = hasKey k d := by
  induction d with
  | nil => simp [setKey, h]
  | cons kv rest ih =>
    cases hb : (kv.1 == k2) with
    | true =>
      have hk : (kv.1 == k) = false := by
        have := eq_of_beq hb
        rw [this]
        exact h
      simp [setKey, hb, h, hk]
    | false => simp [setKey, hb, ih]

theorem lookupKey_setKey (k : String) (v : Value) (d : Doc) :
    lookupKey k (setKey k v d) = some v := by
  induction d with
  | nil => simp [setKey]
  | cons kv rest ih =>
    cases hb : (kv.1 == k) with
    | true => simp [setKey, hb]
    | false => simp [setKey, hb, ih]

theorem hasKey_false_of_lookup_none (k : String) (d : Doc) (h : lookupKey k d = none) :
    hasKey k d = false := by
  induction d with
  | nil => rfl
  | cons kv rest ih =>
    cases hb : (kv.1 == k) with
    | true => simp [hb] at h
    | false =>
      rw [lookupKey_cons, if_neg (by simp [hb])] at h
      simp [hb, ih h]

theorem renameId_no_hidden_id (d : Doc) : hasKey "_id" (renameId d) = false := by
  unfold renameId
  cases h : lookupKey "_id" d with
  | none => exact hasKey_false_of_lookup_none _ _ h
  | some v =>
    rw [hasKey_setKey _ _ _ _ (by decide)]
    exact hasKey_removeKey _ _

theorem renameId_public_id (d : Doc) (v : Value) (h : lookupKey "_id" d = some v) :
    lookupKey "id" (renameId d) = some (Value.str (pyStr v)) := by
  unfold renameId
  rw [h]
  exact lookupKey_setKey _ _ _

theorem createdDocs_seedTrace (samples : List Doc) :
    createdDocs (seedTraceOf samples) = samples := by
  induction samples with
  | nil => rfl
  | cons p rest ih => simpa [createdDocs, seedTraceOf] using ih

theorem createdDocs_listTrace (samples : List Doc) (limit : Option Int) :
    createdDocs (listQuery limit :: (seedTraceOf samples ++ [listQuery limit])) = samples := by
  have h := createdDocs_seedTrace samples
  simp only [createdDocs, listQuery, List.filterMap_cons, List.filterMap_append] at *
  simp [h]

theorem listFallback_eq (env : Env) (limit : Option Int)
    (h : env.present = false ∨ env.getResp 0 = Except.error () ∨
      (env.getResp 0 = Except.ok [] ∧ env.getResp 1 = Except.error ())) :
    (list_projects env limit).1 = fallbackData limit := by
  unfold list_projects list_projects_core fallbackData
  rcases h with h | h | ⟨h0, h1⟩
  · simp [h]
  · cases hp : env.present <;> simp [h]
  · cases hp : env.present <;> simp [h0, h1]

theorem getFallback_eq (env : Env) (slug : String)
    (h : env.present = false ∨ env.getResp 0 = Except.error () ∨
      env.getResp 0 = Except.ok []) :
    (get_project env slug).1 = sampleBySlug slug := by
  unfold get_project get_project_core sampleBySlug
  rcases h with h | h | h
  · simp [h]
  · cases hp : env.present <;> simp [h]
  · cases hp : env.present <;> simp [h]

theorem mem_fallbackData (d : Doc) (limit : Option Int) (h : d ∈ fallbackData limit) :
    d ∈ SAMPLE_PROJECTS := by
  cases limit with
  | none => exact h
  | some k =>
    by_cases hk : k = 0
    · subst hk
      exact h
    · have he : fallbackData (some k) = pySlice SAMPLE_PROJECTS k := by
        simp [fallbackData, fallbackDataOf, hk]
      rw [he] at h
      unfold pySlice at h
      by_cases h0 : 0 ≤ k
      · rw [if_pos h0] at h
        exact List.take_subset _ _ h
      · rw [if_neg h0] at h
        exact List.take_subset _ _ h

theorem sampleBySlug_ok_mem (slug : String) (d : Doc)
    (h : sampleBySlug slug = Except.ok d) : d ∈ SAMPLE_PROJECTS := by
  unfold sampleBySlug sampleBySlugOf at h
  cases hf : SAMPLE_PROJECTS.find? (fun p => lookupKey "slug" p == some (Value.str slug)) with
  | none => rw [hf] at h; cases h
  | some p =>
    rw [hf] at h
    cases h
    exact List.mem_of_find?_eq_some hf

end Portfolio

namespace Portfolio

/-- C1: when the store handle is present and the first project query returns
zero records, `list_projects` issues exactly one `create_document` per
Sample Dataset entry (in dataset order, for every possible pattern of seed
outcomes, so one entry's write failure never aborts the remaining writes),
then re-queries the store and returns the re-queried records (identifier
field renamed). -/
theorem listProjects_seeds_each_sample_once_and_requeries
    (env : Env) (limit : Option Int) (docs2 : List Doc)
    (hp : env.present = true) (h0 : env.getResp 0 = Except.ok [])
    (h1 : env.getResp 1 = Except.ok docs2) :
    (list_projects env limit).2 =
      listQuery limit ::
        (SAMPLE_PROJECTS.map (fun p => Call.createDoc "project" p) ++ [listQuery limit]) ∧
    createdDocs (list_projects env limit).2 = SAMPLE_PROJECTS ∧
    (list_projects env limit).1 = docs2.map renameId := by
  have ht : (list_projects env limit).2 =
      listQuery limit :: (seedTraceOf SAMPLE_PROJECTS ++ [listQuery limit]) := by
    unfold list_projects list_projects_core
    simp [hp, h0, h1]
  refine ⟨by simpa [seedTraceOf] using ht, ?_, ?_⟩
  · rw [ht]
    exact createdDocs_listTrace _ _
  · unfold list_projects list_projects_core
    simp [hp, h0, h1]

theorem listProjects_seeds_witness :
    (list_projects envSeedFail none).2 =
      listQuery none ::
        (SAMPLE_PROJECTS.map (fun p => Call.createDoc "project" p) ++ [listQuery none]) ∧
    createdDocs (list_projects envSeedFail none).2 = SAMPLE_PROJECTS ∧
    (list_projects envSeedFail none).1 = [docX].map renameId :=
  listProjects_seeds_each_sample_once_and_requeries envSeedFail none [docX] rfl rfl rfl

/-- C2 (amended): `list_projects` never surfaces an error; when the store
handle is absent, or a store read (either query) raises, it returns the
Sample Dataset truncated by the prefix slice of line 136. (A seed-write
failure alone does not trigger this fallback: it is swallowed and the
re-queried store records are returned.) -/
theorem listProjects_fallback_on_absent_or_read_error (env : Env) (limit : Option Int)
    (h : env.present = false ∨ env.getResp 0 = Except.error () ∨
      (env.getResp 0 = Except.ok [] ∧ env.getResp 1 = Except.error ())) :
    (list_projects env limit).1 = fallbackData limit :=
  listFallback_eq env limit h

theorem listProjects_fallback_witness :
    (list_projects envAbsent (some 2)).1 = fallbackData (some 2) :=
  listProjects_fallback_on_absent_or_read_error envAbsent (some 2) (Or.inl rfl)

/-- C2, as stated, is false: a raising seed-write step does not make the
handler return the Sample Dataset. With a reachable store that is empty on
first read, whose first seed write raises and whose re-query returns a
stored document, the handler returns that stored document, not the
(truncated) Sample Dataset. -/
theorem listProjects_seed_failure_no_fallback_cex :
    envSeedFail.present = true ∧
    envSeedFail.getResp 0 = Except.ok [] ∧
    envSeedFail.createResp 0 = Except.error () ∧
    envSeedFail.getResp 1 = Except.ok [docX] ∧
    (list_projects envSeedFail none).1 ≠ fallbackData none := by
  refine ⟨rfl, rfl, rfl, rfl, ?_⟩
  decide

end Portfolio

namespace Portfolio

/-- C3: with the store unavailable, `list_projects` at a (positive, per the
contract) limit N that is at most the Sample Dataset's length returns
exactly the first N sample entries in their fixed order. -/
theorem listProjects_absent_store_first_n (env : Env) (n : Nat)
    (hp : env.present = false) (h1 : 1 ≤ n) (h2 : n ≤ SAMPLE_PROJECTS.length) :
    (list_projects env (some (n : Int))).1 = SAMPLE_PROJECTS.take n ∧
    (SAMPLE_PROJECTS.take n).length = n := by
  constructor
  · have hn : ((n : Int)) ≠ 0 := by
      exact_mod_cast Nat.one_le_iff_ne_zero.mp h1
    unfold list_projects list_projects_core
    simp [hp, fallbackDataOf, hn, pySlice, Int.toNat_natCast]
  · rw [List.length_take]
    exact Nat.min_eq_left h2

theorem listProjects_absent_store_first_n_witness :
    (list_projects envAbsent (some (2 : Int))).1 = SAMPLE_PROJECTS.take 2 ∧
    (SAMPLE_PROJECTS.take 2).length = 2 :=
  listProjects_absent_store_first_n envAbsent 2 rfl (by decide) (by decide)

/-- C9: with the store unavailable, a limit of 0 is falsy in the fallback
slice condition, so `list_projects` returns the whole Sample Dataset,
exactly as with an absent limit. -/
theorem listProjects_limit_zero_full_dataset (env : Env) (hp : env.present = false) :
    (list_projects env (some 0)).1 = SAMPLE_PROJECTS ∧
    (list_projects env (some 0)).1 = (list_projects env none).1 := by
  unfold list_projects list_projects_core
  simp [hp, fallbackDataOf]

theorem listProjects_limit_zero_witness :
    (list_projects envAbsent (some 0)).1 = SAMPLE_PROJECTS ∧
    (list_projects envAbsent (some 0)).1 = (list_projects envAbsent none).1 :=
  listProjects_limit_zero_full_dataset envAbsent rfl

/-- C4: for a slug matching no record of the store's project collection and
no Sample Dataset entry, `get_project` fails with the 404 condition and the
fixed detail "Project not found". -/
theorem getProject_unknown_slug_404 (projects : List Doc) (slug : String)
    (hstore : ∀ d ∈ projects, lookupKey "slug" d ≠ some (Value.str slug))
    (hsample : ∀ p ∈ SAMPLE_PROJECTS, lookupKey "slug" p ≠ some (Value.str slug)) :
    (get_project (envOfStoreSlug projects slug) slug).1 =
      Except.error (404, "Project not found") := by
  have hq : storeQuery projects [("slug", Value.str slug)] 1 = [] := by
    unfold storeQuery
    have hf : projects.filter
        (fun d => ([("slug", Value.str slug)] : Doc).all
          (fun kv => lookupKey kv.1 d == some kv.2)) = [] := by
      rw [List.filter_eq_nil_iff]
      intro d hd
      simp [hstore d hd]
    rw [hf]
    rfl
  have hs : sampleBySlug slug = Except.error (404, "Project not found") := by
    unfold sampleBySlug sampleBySlugOf
    rw [List.find?_eq_none.mpr]
    intro p hp
    simp [hsample p hp]
  unfold get_project get_project_core
  simp only [envOfStoreSlug, hq]
  exact hs

theorem getProject_unknown_slug_404_witness :
    (get_project (envOfStoreSlug [] "does-not-exist") "does-not-exist").1 =
      Except.error (404, "Project not found") :=
  getProject_unknown_slug_404 [] "does-not-exist" (by simp) (by decide)

/-- C5: whenever the store is unavailable, errors, or finds no record for
the slug, `get_project` answers from the Sample Dataset scan by exact slug
match; in particular the slug "immersive-brand-microsite" then yields a
record titled "Immersive Brand Microsite". -/
theorem getProject_sample_fallback_by_slug (env : Env) (slug : String)
    (h : env.present = false ∨ env.getResp 0 = Except.error () ∨
      env.getResp 0 = Except.ok []) :
    (get_project env slug).1 = sampleBySlug slug ∧
    ∃ d, (get_project env "immersive-brand-microsite").1 = Except.ok d ∧
      lookupKey "title" d = some (Value.str "Immersive Brand Microsite") := by
  refine ⟨getFallback_eq env slug h, SAMPLE_PROJECTS.headI, ?_, by decide⟩
  rw [getFallback_eq env "immersive-brand-microsite" h]
  decide

theorem getProject_sample_fallback_witness :
    (get_project envAbsent "realtime-product-configurator").1 =
      sampleBySlug "realtime-product-configurator" ∧
    ∃ d, (get_project envAbsent "immersive-brand-microsite").1 = Except.ok d ∧
      lookupKey "title" d = some (Value.str "Immersive Brand Microsite") :=
  getProject_sample_fallback_by_slug envAbsent "realtime-product-configurator" (Or.inl rfl)

end Portfolio

namespace Portfolio

/-- C6: for any well-formed contact payload, `submit_contact` answers with
status "ok" whatever the store does: a null identifier when the handle is
absent or the write raises, and the new record's identifier string when the
write succeeds. -/
theorem submitContact_always_ok (env : Env) (name email message : String) :
    (submit_contact env name email message).1.status = "ok" ∧
    ((env.present = false ∨ env.createResp 0 = Except.error ()) →
      (submit_contact env name email message).1.id = none) ∧
    (∀ i, env.present = true → env.createResp 0 = Except.ok i →
      (submit_contact env name email message).1.id = some i) := by
  refine ⟨?_, ?_, ?_⟩
  · unfold submit_contact
    cases hp : env.present
    · simp
    · cases hc : env.createResp 0 <;> simp [hc]
  · rintro (h | h)
    · unfold submit_contact
      simp [h]
    · unfold submit_contact
      cases hp : env.present
      · simp
      · simp [h]
  · intro i hp hc
    unfold submit_contact
    simp [hp, hc]

theorem submitContact_always_ok_witness :
    (submit_contact envAbsent "A" "a@b.com" "hi").1.status = "ok" ∧
    (submit_contact envAbsent "A" "a@b.com" "hi").1.id = none ∧
    (submit_contact envStored "A" "a@b.com" "hi").1.id = some "y" :=
  ⟨(submitContact_always_ok envAbsent "A" "a@b.com" "hi").1,
   (submitContact_always_ok envAbsent "A" "a@b.com" "hi").2.1 (Or.inl rfl),
   (submitContact_always_ok envStored "A" "a@b.com" "hi").2.2 "y" rfl rfl⟩

/-- C7: a store-sourced record is returned only through `renameId`, whose
output never contains the internal "_id" field; when the fetched record had
one, the output's public "id" field holds its string form. Covers the
non-empty first read and the post-seed re-read of `list_projects`, and the
single-record read of `get_project`. -/
theorem store_records_id_renamed (env : Env) (limit : Option Int) (slug : String)
    (docs : List Doc) (d0 : Doc) (rest : List Doc) (hp : env.present = true) :
    (env.getResp 0 = Except.ok docs → docs ≠ [] →
      (list_projects env limit).1 = docs.map renameId) ∧
    (env.getResp 0 = Except.ok [] → env.getResp 1 = Except.ok docs →
      (list_projects env limit).1 = docs.map renameId) ∧
    (env.getResp 0 = Except.ok (d0 :: rest) →
      (get_project env slug).1 = Except.ok (renameId d0)) ∧
    (∀ d : Doc, hasKey "_id" (renameId d) = false ∧
      ∀ v, lookupKey "_id" d = some v →
        lookupKey "id" (renameId d) = some (Value.str (pyStr v))) := by
  refine ⟨?_, ?_, ?_, ?_⟩
  · intro h0 hne
    unfold list_projects list_projects_core
    simp [hp, h0, List.isEmpty_iff, hne]
  · intro h0 h1
    unfold list_projects list_projects_core
    simp [hp, h0, h1]
  · intro h0
    unfold get_project get_project_core
    simp [hp, h0]
  · intro d
    exact ⟨renameId_no_hidden_id d, fun v hv => renameId_public_id d v hv⟩

theorem store_records_id_renamed_witness :
    (list_projects envStored none).1 = [docX].map renameId ∧
    (get_project envStored "stored-project").1 = Except.ok (renameId docX) ∧
    hasKey "_id" (renameId docX) = false ∧
    lookupKey "id" (renameId docX) =
      some (Value.str (pyStr (Value.oid "64a0c0ffee00c0ffee00c0ff"))) :=
  ⟨(store_records_id_renamed envStored none "stored-project" [docX] docX [] rfl).1
      rfl (by decide),
   (store_records_id_renamed envStored none "stored-project" [docX] docX [] rfl).2.2.1 rfl,
   ((store_records_id_renamed envStored none "stored-project" [docX] docX [] rfl).2.2.2
      docX).1,
   ((store_records_id_renamed envStored none "stored-project" [docX] docX [] rfl).2.2.2
      docX).2 (Value.oid "64a0c0ffee00c0ffee00c0ff") rfl⟩

/-- C8: the Sample Dataset global is never mutated by any handler: each
handler maps the process state to itself, and the only documents the
listing handler ever hands to `create_document` are the sample entries
themselves, unchanged and in order (or none at all when no seeding
happens). -/
theorem sample_dataset_never_mutated (w : World) (limit : Option Int)
    (slug name email message : String) :
    (list_projects_w w limit).2 = w ∧
    (get_project_w w slug).2 = w ∧
    (submit_contact_w w name email message).2 = w ∧
    (createdDocs (list_projects_w w limit).1.2 = w.samples ∨
      createdDocs (list_projects_w w limit).1.2 = []) := by
  refine ⟨rfl, rfl, rfl, ?_⟩
  unfold list_projects_w list_projects_core
  cases hp : w.env.present
  · right
    rfl
  · cases h0 : w.env.getResp 0 with
    | error e =>
      right
      simp [createdDocs, listQuery]
    | ok docs =>
      cases hd : docs.isEmpty
      · right
        simp [hd, createdDocs, listQuery]
      · cases h1 : w.env.getResp 1 with
        | error e =>
          left
          simp only [hd]
          exact createdDocs_listTrace _ _
        | ok docs2 =>
          left
          simp only [hd]
          exact createdDocs_listTrace _ _

/-- C10: a record served from the Sample Dataset fallback of either
`list_projects` or `get_project` is one of the sample entries exactly as
defined, and carries neither an "id" nor a "_id" field. -/
theorem fallback_records_have_no_id_fields (env : Env) (limit : Option Int)
    (slug : String) (d : Doc)
    (hlist : env.present = false ∨ env.getResp 0 = Except.error () ∨
      (env.getResp 0 = Except.ok [] ∧ env.getResp 1 = Except.error ()))
    (hget : env.present = false ∨ env.getResp 0 = Except.error () ∨
      env.getResp 0 = Except.ok []) :
    (d ∈ (list_projects env limit).1 →
      d ∈ SAMPLE_PROJECTS ∧ hasKey "id" d = false ∧ hasKey "_id" d = false) ∧
    ((get_project env slug).1 = Except.ok d →
      d ∈ SAMPLE_PROJECTS ∧ hasKey "id" d = false ∧ hasKey "_id" d = false) := by
  have hsam : ∀ p ∈ SAMPLE_PROJECTS, hasKey "id" p = false ∧ hasKey "_id" p = false := by
    decide
  constructor
  · intro hd
    rw [listFallback_eq env limit hlist] at hd
    have hm := mem_fallbackData d limit hd
    exact ⟨hm, (hsam d hm).1, (hsam d hm).2⟩
  · intro hd
    rw [getFallback_eq env slug hget] at hd
    have hm := sampleBySlug_ok_mem slug d hd
    exact ⟨hm, (hsam d hm).1, (hsam d hm).2⟩

theorem fallback_records_witness :
    SAMPLE_PROJECTS.headI ∈ SAMPLE_PROJECTS ∧
    hasKey "id" SAMPLE_PROJECTS.headI = false ∧
    hasKey "_id" SAMPLE_PROJECTS.headI = false :=
  (fallback_records_have_no_id_fields envAbsent none "immersive-brand-microsite"
      SAMPLE_PROJECTS.headI (Or.inl rfl) (Or.inl rfl)).2 (by decide)

end Portfolio
